import Mathlib

/-!
Shallow embedding of `src/home_loan.py` (Indian Home Loan Calculator):
input validation, monthly-payment formula, amortization-schedule loop,
headline totals, and the prepayment-frequency handling.  Real arithmetic
of the source is modelled over `ℚ`.
-/

/-- Validation errors, one per input constraint checked by the script. -/
inductive ValidationError where
  | invalidHomeValue
  | negativeDeposit
  | depositExceedsValue
  | invalidInterestRate
  | invalidTerm
  | negativeFees
  | negativePrepayment
  | nonPositiveLoanAmount
deriving DecidableEq, Repr

/-- `validate_inputs` (lines 13-37): collects one error per violated check,
in source order, never stopping at the first. -/
def validate_inputs (home_value deposit interest_rate loan_term processing_fees prepayment : ℚ) :
    List ValidationError :=
  (if home_value ≤ 0 then [ValidationError.invalidHomeValue] else []) ++
  (if deposit < 0 then [ValidationError.negativeDeposit] else []) ++
  (if deposit > home_value then [ValidationError.depositExceedsValue] else []) ++
  (if interest_rate ≤ 0 then [ValidationError.invalidInterestRate] else []) ++
  (if loan_term ≤ 0 then [ValidationError.invalidTerm] else []) ++
  (if processing_fees < 0 then [ValidationError.negativeFees] else []) ++
  (if prepayment < 0 then [ValidationError.negativePrepayment] else [])

/-- The script-level error gate (lines 57-70): if `validate_inputs` returns
errors the script stops with them; only otherwise does it compute
`loan_amount = home_value - deposit` and stop with the non-positive
loan-amount error when that is ≤ 0. -/
def checkInputs (home_value deposit interest_rate loan_term processing_fees prepayment : ℚ) :
    List ValidationError :=
  let errs := validate_inputs home_value deposit interest_rate loan_term processing_fees prepayment
  if errs = [] then
    if home_value - deposit ≤ 0 then [ValidationError.nonPositiveLoanAmount] else []
  else errs

/-- `monthly_payment` (lines 76-84): straight-line when the monthly rate is
zero, otherwise the standard annuity formula. -/
def computeMonthlyPayment (loanAmount monthlyRate : ℚ) (numPayments : ℕ) : ℚ :=
  if monthlyRate = 0 then loanAmount / (numPayments : ℚ)
  else
    loanAmount * (monthlyRate * (1 + monthlyRate) ^ numPayments) /
      ((1 + monthlyRate) ^ numPayments - 1)

/-- One row of the amortization table (lines 134-141). -/
structure ScheduleEntry where
  month : ℕ
  payment : ℚ
  principalPortion : ℚ
  interestPortion : ℚ
  remainingBalance : ℚ
  year : ℕ
deriving DecidableEq, Repr

/-- The amortization loop body (lines 117-144), by structural recursion on
the number of iterations left.  `i` is the 1-based month index; `payment`
is the mutable `monthly_payment` variable (rewritten when the final
principal is clamped); the loop breaks once the balance is ≤ 0. -/
def scheduleAux (monthlyRate prepayment : ℚ) : ℚ → ℚ → ℕ → ℕ → List ScheduleEntry
  | _, _, _, 0 => []
  | payment, balance, i, fuel + 1 =>
    let interest := balance * monthlyRate
    let basePrincipal := payment - interest
    let withPre :=
      if 0 < prepayment ∧ i % 12 = 0 then basePrincipal + prepayment else basePrincipal
    let principal := if balance < withPre then balance else withPre
    let payment2 := if balance < withPre then principal + interest else payment
    let balance2 := balance - principal
    let entry : ScheduleEntry :=
      ⟨i, payment2, principal, interest, max balance2 0, (i + 11) / 12⟩
    if balance2 ≤ 0 then [entry]
    else entry :: scheduleAux monthlyRate prepayment payment2 balance2 (i + 1) fuel

/-- `simulate`: the full schedule for months `1 .. numPayments`. -/
def simulate (loanAmount payment monthlyRate : ℚ) (numPayments : ℕ) (prepayment : ℚ) :
    List ScheduleEntry :=
  scheduleAux monthlyRate prepayment payment loanAmount 1 numPayments

/-- The prepayment actually credited by the loop at month `i`
(lines 122-124): the raw yearly figure at months divisible by 12 when the
prepayment input is positive, and nothing otherwise. -/
def preAt (pre : ℚ) (i : ℕ) : ℚ :=
  if 0 < pre ∧ i % 12 = 0 then pre else 0

/-- The prepayment frequency radio choice (line 96). -/
inductive PrepaymentFrequency where
  | yearly
  | monthly
deriving DecidableEq, Repr

/-- `prepayment_amount` (lines 94-100): derived per-frequency figure.
The source computes it but never reads it again. -/
def prepayment_amount (prepayment : ℚ) (freq : PrepaymentFrequency) : ℚ :=
  if 0 < prepayment then
    match freq with
    | PrepaymentFrequency.yearly => prepayment / 12
    | PrepaymentFrequency.monthly => prepayment
  else 0

/-- The engine pipeline from validated inputs to the schedule
(lines 67-144): loan amount, monthly rate, payment, then the loop.  The
frequency-derived `prepayment_amount` is bound exactly as in the source
and, as in the source, not consumed by the loop. -/
def engineSchedule (home_value deposit interest_rate : ℚ) (loan_term : ℕ) (prepayment : ℚ)
    (freq : PrepaymentFrequency) : List ScheduleEntry :=
  let loanAmount := home_value - deposit
  let monthlyRate := interest_rate / 100 / 12
  let numPayments := loan_term * 12
  let payment := computeMonthlyPayment loanAmount monthlyRate numPayments
  let _prepaymentAmount := prepayment_amount prepayment freq
  simulate loanAmount payment monthlyRate numPayments prepayment

/-- `total_payments` (line 103): the closed-form headline metric, computed
before the loop from the unmutated monthly payment. -/
def total_payments (home_value deposit interest_rate : ℚ) (loan_term : ℕ) (prepayment : ℚ) : ℚ :=
  let loanAmount := home_value - deposit
  let monthlyRate := interest_rate / 100 / 12
  let numPayments := loan_term * 12
  let _ := prepayment
  computeMonthlyPayment loanAmount monthlyRate numPayments * (numPayments : ℚ)

/-- `total_interest` (line 104). -/
def total_interest (home_value deposit interest_rate : ℚ) (loan_term : ℕ) (prepayment : ℚ) : ℚ :=
  total_payments home_value deposit interest_rate loan_term prepayment - (home_value - deposit)

/-- Sum of the effective payments of the produced schedule — the
spec-side (§4.4) definition of `totalPayments`, for comparison with the
source's closed form. -/
def sumPayments (s : List ScheduleEntry) : ℚ :=
  (s.map fun e => e.payment).sum

/-- C5: with zero monthly rate the payment formula is straight-line
division, and at loanAmount 120000 over 12 payments it is exactly 10000. -/
theorem c5_zero_rate_payment :
    (∀ (loanAmount : ℚ) (numPayments : ℕ),
        computeMonthlyPayment loanAmount 0 numPayments = loanAmount / (numPayments : ℚ)) ∧
      computeMonthlyPayment 120000 0 12 = 10000 := by
  constructor
  · intro loanAmount numPayments
    simp [computeMonthlyPayment]
  · norm_num [computeMonthlyPayment]

/-- Fuel-exhaustion equation for the loop. -/
theorem scheduleAux_zero (r pre payment balance : ℚ) (i : ℕ) :
    scheduleAux r pre payment balance i 0 = [] := rfl

/-- One-step equation for the loop, for nonzero fuel given as a numeral. -/
theorem scheduleAux_pos (r pre payment balance : ℚ) (i fuel : ℕ) (h : fuel ≠ 0) :
    scheduleAux r pre payment balance i fuel =
      (let interest := balance * r
       let basePrincipal := payment - interest
       let withPre :=
        if 0 < pre ∧ i % 12 = 0 then basePrincipal + pre else basePrincipal
       let principal := if balance < withPre then balance else withPre
       let payment2 := if balance < withPre then principal + interest else payment
       let balance2 := balance - principal
       let entry : ScheduleEntry :=
        ⟨i, payment2, principal, interest, max balance2 0, (i + 11) / 12⟩
       if balance2 ≤ 0 then [entry]
       else entry :: scheduleAux r pre payment2 balance2 (i + 1) (fuel - 1)) := by
  obtain ⟨f, rfl⟩ : ∃ f, fuel = f + 1 :=
    ⟨fuel - 1, (Nat.succ_pred_eq_of_pos (Nat.pos_of_ne_zero h)).symm⟩
  rfl

/-- One-step equation for the loop with the month's prepayment expressed
through `preAt`. -/
theorem scheduleAux_succ_preAt (r pre payment balance : ℚ) (i fuel : ℕ) :
    scheduleAux r pre payment balance i (fuel + 1) =
      (let withPre := payment - balance * r + preAt pre i
       let principal := if balance < withPre then balance else withPre
       let payment2 := if balance < withPre then principal + balance * r else payment
       let balance2 := balance - principal
       let entry : ScheduleEntry :=
        ⟨i, payment2, principal, balance * r, max balance2 0, (i + 11) / 12⟩
       if balance2 ≤ 0 then [entry]
       else entry :: scheduleAux r pre payment2 balance2 (i + 1) fuel) := by
  by_cases hc : 0 < pre ∧ i % 12 = 0 <;>
    simp [scheduleAux, preAt, hc]

/-- Membership in a conditional singleton. -/
theorem mem_ite_singleton {c : Prop} [Decidable c] (a b : ValidationError) :
    (a ∈ (if c then [b] else [])) ↔ c ∧ a = b := by
  by_cases h : c <;> simp [h]

/-- `validate_inputs` membership characterization: each error is present
exactly when its constraint is violated, independently of the others. -/
theorem mem_validate_inputs_iff (hv d rate t fees pre : ℚ) (e : ValidationError) :
    e ∈ validate_inputs hv d rate t fees pre ↔
      (hv ≤ 0 ∧ e = ValidationError.invalidHomeValue) ∨
      (d < 0 ∧ e = ValidationError.negativeDeposit) ∨
      (hv < d ∧ e = ValidationError.depositExceedsValue) ∨
      (rate ≤ 0 ∧ e = ValidationError.invalidInterestRate) ∨
      (t ≤ 0 ∧ e = ValidationError.invalidTerm) ∨
      (fees < 0 ∧ e = ValidationError.negativeFees) ∨
      (pre < 0 ∧ e = ValidationError.negativePrepayment) := by
  simp [validate_inputs, mem_ite_singleton, gt_iff_lt]

/-- Claim C3 counterexample: at the concrete input homeValue 100,
deposit 150 (deposit exceeds home value, otherwise valid), the script's
error output contains `DepositExceedsValue` but not
`NonPositiveLoanAmount`, refuting "the result contains both". -/
theorem c3_counterexample :
    ValidationError.depositExceedsValue ∈ checkInputs 100 150 8 20 0 0 ∧
      ValidationError.nonPositiveLoanAmount ∉ checkInputs 100 150 8 20 0 0 := by
  refine ⟨?_, ?_⟩ <;> norm_num [checkInputs, validate_inputs] <;> decide

/-- Claim C3 as amended: `validate_inputs` itself collects every violated
constraint among its seven checks, but the non-positive-loan-amount check
is a separate fail-fast step run only when validation passes; hence for
deposit > homeValue the output contains `DepositExceedsValue` and never
`NonPositiveLoanAmount`. -/
theorem c3_validation_collects_all (hv d rate t fees pre : ℚ) (h : hv < d) :
    ValidationError.depositExceedsValue ∈ checkInputs hv d rate t fees pre ∧
      ValidationError.nonPositiveLoanAmount ∉ checkInputs hv d rate t fees pre ∧
      (∀ e, e ∈ validate_inputs hv d rate t fees pre ↔
        (hv ≤ 0 ∧ e = ValidationError.invalidHomeValue) ∨
        (d < 0 ∧ e = ValidationError.negativeDeposit) ∨
        (hv < d ∧ e = ValidationError.depositExceedsValue) ∨
        (rate ≤ 0 ∧ e = ValidationError.invalidInterestRate) ∨
        (t ≤ 0 ∧ e = ValidationError.invalidTerm) ∨
        (fees < 0 ∧ e = ValidationError.negativeFees) ∨
        (pre < 0 ∧ e = ValidationError.negativePrepayment)) := by
  have hmem : ValidationError.depositExceedsValue ∈ validate_inputs hv d rate t fees pre := by
    rw [mem_validate_inputs_iff]
    tauto
  have hne : validate_inputs hv d rate t fees pre ≠ [] := List.ne_nil_of_mem hmem
  have hck : checkInputs hv d rate t fees pre = validate_inputs hv d rate t fees pre := by
    simp only [checkInputs, if_neg hne]
  refine ⟨hck ▸ hmem, ?_, fun e => mem_validate_inputs_iff hv d rate t fees pre e⟩
  rw [hck, mem_validate_inputs_iff]
  rintro (⟨_, he⟩ | ⟨_, he⟩ | ⟨_, he⟩ | ⟨_, he⟩ | ⟨_, he⟩ | ⟨_, he⟩ | ⟨_, he⟩) <;>
    exact ValidationError.noConfusion he

/-- Claim C3 witness: the amended statement at the concrete input
homeValue 100, deposit 150. -/
theorem c3_validation_collects_all_witness :
    ValidationError.depositExceedsValue ∈ checkInputs 100 150 8 20 0 0 ∧
      ValidationError.nonPositiveLoanAmount ∉ checkInputs 100 150 8 20 0 0 ∧
      (∀ e, e ∈ validate_inputs 100 150 8 20 0 0 ↔
        ((100:ℚ) ≤ 0 ∧ e = ValidationError.invalidHomeValue) ∨
        ((150:ℚ) < 0 ∧ e = ValidationError.negativeDeposit) ∨
        ((100:ℚ) < 150 ∧ e = ValidationError.depositExceedsValue) ∨
        ((8:ℚ) ≤ 0 ∧ e = ValidationError.invalidInterestRate) ∨
        ((20:ℚ) ≤ 0 ∧ e = ValidationError.invalidTerm) ∨
        ((0:ℚ) < 0 ∧ e = ValidationError.negativeFees) ∨
        ((0:ℚ) < 0 ∧ e = ValidationError.negativePrepayment)) :=
  c3_validation_collects_all 100 150 8 20 0 0 (by norm_num)

/-- Claim C4, code evaluated at the failing input: a fractional loan term
of 1/2 year (with every other input valid) passes `validate_inputs` with
no error at all, although the claim — and the source's own error message,
"Loan term must be at least 1 year" — require `InvalidTerm` for any term
below 1. -/
theorem c4_fractional_term_accepted :
    validate_inputs 100 0 8 (1/2) 0 0 = [] ∧ (0:ℚ) < 1/2 ∧ (1:ℚ)/2 < 1 := by
  norm_num [validate_inputs]

/-- Claim C10: the prepayment-frequency choice never influences the
computed schedule — the frequency-derived `prepayment_amount` is computed
but never consumed, and the loop credits the raw yearly figure at months
divisible by 12 in both cases. -/
theorem c10_frequency_no_influence (hv d rate : ℚ) (t : ℕ) (pre : ℚ) (_h : 0 < pre) :
    engineSchedule hv d rate t pre PrepaymentFrequency.yearly =
      engineSchedule hv d rate t pre PrepaymentFrequency.monthly := rfl

/-- Claim C10 witness: the two frequency choices agree at a concrete
positive-prepayment input. -/
theorem c10_frequency_no_influence_witness :
    engineSchedule 1100 100 1200 1 600 PrepaymentFrequency.yearly =
      engineSchedule 1100 100 1200 1 600 PrepaymentFrequency.monthly :=
  c10_frequency_no_influence 1100 100 1200 1 600 (by norm_num)

/-- Every entry the loop appends carries a clamped, non-negative reported
balance. -/
theorem scheduleAux_balance_nonneg :
    ∀ (fuel : ℕ) (r pre payment balance : ℚ) (i : ℕ) (e : ScheduleEntry),
      e ∈ scheduleAux r pre payment balance i fuel → 0 ≤ e.remainingBalance := by
  intro fuel
  induction fuel with
  | zero =>
    intro r pre payment balance i e h
    simp [scheduleAux] at h
  | succ n ih =>
    intro r pre payment balance i e h
    rw [scheduleAux_succ_preAt] at h
    simp only [] at h
    split at h <;> split at h <;>
      rcases List.mem_cons.mp h with rfl | hmem <;>
        first
          | exact le_max_right _ 0
          | exact absurd hmem (List.not_mem_nil _)
          | exact ih _ _ _ _ _ _ hmem

/-- Claim C7: every entry of any produced schedule reports a remaining
balance that is ≥ 0 (the final month's principal is clamped to the
balance and the reported balance is clamped to 0 from below). -/
theorem c7_balance_nonneg (loanAmount payment monthlyRate : ℚ) (numPayments : ℕ)
    (prepayment : ℚ) (e : ScheduleEntry)
    (h : e ∈ simulate loanAmount payment monthlyRate numPayments prepayment) :
    0 ≤ e.remainingBalance :=
  scheduleAux_balance_nonneg numPayments monthlyRate prepayment payment loanAmount 1 e h

/-- Claim C7 witness: the single clamped entry of a concrete one-month
payoff has non-negative reported balance. -/
theorem c7_balance_nonneg_witness :
    0 ≤ (ScheduleEntry.mk 1 100 100 0 0 1).remainingBalance :=
  c7_balance_nonneg 100 250 0 12 0 (ScheduleEntry.mk 1 100 100 0 0 1)
    (by norm_num [simulate, scheduleAux_pos])

/-- The loop either exhausts its fuel or its last appended entry reports a
zero balance (the early break fires exactly when the balance is ≤ 0 and
the reported balance is `max _ 0`). -/
theorem scheduleAux_length_eq_or_last_zero :
    ∀ (fuel : ℕ) (r pre payment balance : ℚ) (i : ℕ),
      (scheduleAux r pre payment balance i fuel).length = fuel ∨
        ∃ e, (scheduleAux r pre payment balance i fuel).getLast? = some e ∧
          e.remainingBalance = 0 := by
  intro fuel
  induction fuel with
  | zero => intro r pre payment balance i; left; rfl
  | succ n ih =>
    intro r pre payment balance i
    rw [scheduleAux_succ_preAt]
    simp only []
    by_cases hc : balance < payment - balance * r + preAt pre i
    · simp only [if_pos hc, sub_self]
      rw [if_pos le_rfl]
      right
      exact ⟨_, rfl, by simp⟩
    · simp only [if_neg hc]
      by_cases hb : balance - (payment - balance * r + preAt pre i) ≤ 0
      · rw [if_pos hb]
        right
        exact ⟨_, rfl, max_eq_right hb⟩
      · rw [if_neg hb]
        rcases ih r pre payment (balance - (payment - balance * r + preAt pre i)) (i + 1)
          with hlen | ⟨e, he, hz⟩
        · left
          simp [hlen]
        · right
          refine ⟨e, ?_, hz⟩
          rcases hr : scheduleAux r pre payment
              (balance - (payment - balance * r + preAt pre i)) (i + 1) n with _ | ⟨b, l⟩
          · rw [hr] at he
            simp at he
          · rw [hr] at he
            rw [List.getLast?_cons_cons]
            exact he

/-- The loop never appends more entries than its fuel. -/
theorem scheduleAux_length_le :
    ∀ (fuel : ℕ) (r pre payment balance : ℚ) (i : ℕ),
      (scheduleAux r pre payment balance i fuel).length ≤ fuel := by
  intro fuel
  induction fuel with
  | zero =>
    intro r pre payment balance i
    simp [scheduleAux]
  | succ n ih =>
    intro r pre payment balance i
    rw [scheduleAux_succ_preAt]
    simp only []
    split_ifs <;> simp <;> exact ih _ _ _ _ _

/-- Claim C8: with no prepayment the schedule of a valid term has at most
termYears*12 entries, and exactly that many unless the balance reaches
zero at an earlier month, in which case the loop breaks there with a
final reported balance of 0. -/
theorem c8_schedule_length (loanAmount payment monthlyRate : ℚ) (termYears : ℕ)
    (h : 1 ≤ termYears) :
    (simulate loanAmount payment monthlyRate (termYears * 12) 0).length ≤ termYears * 12 ∧
      ((simulate loanAmount payment monthlyRate (termYears * 12) 0).length = termYears * 12 ∨
        ∃ e, (simulate loanAmount payment monthlyRate (termYears * 12) 0).getLast? = some e ∧
          e.remainingBalance = 0) :=
  ⟨scheduleAux_length_le (termYears * 12) monthlyRate 0 payment loanAmount 1,
    scheduleAux_length_eq_or_last_zero (termYears * 12) monthlyRate 0 payment loanAmount 1⟩

/-- Claim C8 witness: a concrete zero-rate, zero-payment run exhausts all
12 months of a 1-year term. -/
theorem c8_schedule_length_witness :
    (simulate 1 0 0 (1 * 12) 0).length ≤ 1 * 12 ∧
      ((simulate 1 0 0 (1 * 12) 0).length = 1 * 12 ∨
        ∃ e, (simulate 1 0 0 (1 * 12) 0).getLast? = some e ∧ e.remainingBalance = 0) :=
  c8_schedule_length 1 0 0 1 (by norm_num)

/-- A larger prepayment input never credits less in any month. -/
theorem preAt_mono {pre1 pre2 : ℚ} (h0 : 0 ≤ pre1) (h12 : pre1 ≤ pre2) (i : ℕ) :
    preAt pre1 i ≤ preAt pre2 i := by
  simp only [preAt]
  split_ifs with hc1 hc2 hc2
  · exact h12
  · exact absurd ⟨by linarith [hc1.1], hc1.2⟩ hc2
  · linarith
  · exact le_refl 0

/-- A loop iteration always appends at least one entry. -/
theorem scheduleAux_length_one_le (r pre payment balance : ℚ) (i fuel : ℕ) :
    1 ≤ (scheduleAux r pre payment balance i (fuel + 1)).length := by
  rw [scheduleAux_succ_preAt]
  simp only []
  split_ifs <;> simp

/-- If the month's payment plus credited prepayment covers the accrued
balance, the loop appends one final entry and breaks. -/
theorem scheduleAux_length_break (r pre payment balance : ℚ) (i fuel : ℕ)
    (h : balance * (1 + r) - payment - preAt pre i ≤ 0) :
    (scheduleAux r pre payment balance i (fuel + 1)).length = 1 := by
  rw [scheduleAux_succ_preAt]
  simp only []
  by_cases hc : balance < payment - balance * r + preAt pre i
  · simp only [if_pos hc, sub_self]
    rw [if_pos le_rfl]
    rfl
  · simp only [if_neg hc]
    rw [if_pos (by nlinarith : balance - (payment - balance * r + preAt pre i) ≤ 0)]
    rfl

/-- If the month's payment plus credited prepayment does not cover the
accrued balance, the loop appends one entry and recurses on the reduced
balance with the same regular payment. -/
theorem scheduleAux_length_go (r pre payment balance : ℚ) (i fuel : ℕ)
    (h : 0 < balance * (1 + r) - payment - preAt pre i) :
    (scheduleAux r pre payment balance i (fuel + 1)).length =
      1 + (scheduleAux r pre payment
        (balance * (1 + r) - payment - preAt pre i) (i + 1) fuel).length := by
  rw [scheduleAux_succ_preAt]
  simp only []
  have hc : ¬ balance < payment - balance * r + preAt pre i := by nlinarith
  simp only [if_neg hc]
  have hb : ¬ balance - (payment - balance * r + preAt pre i) ≤ 0 := by nlinarith
  rw [if_neg hb]
  have harith : balance - (payment - balance * r + preAt pre i) =
      balance * (1 + r) - payment - preAt pre i := by ring
  rw [harith, List.length_cons]
  omega

/-- Core monotonicity: a run started on a smaller balance with a larger
prepayment never takes more iterations than one started on a larger
balance with a smaller prepayment. -/
theorem scheduleAux_length_mono (r : ℚ) (hr : 0 ≤ r) {pre1 pre2 : ℚ} (h0 : 0 ≤ pre1)
    (h12 : pre1 ≤ pre2) (payment : ℚ) :
    ∀ (fuel : ℕ) (b1 b2 : ℚ) (i : ℕ), b2 ≤ b1 →
      (scheduleAux r pre2 payment b2 i fuel).length ≤
        (scheduleAux r pre1 payment b1 i fuel).length := by
  intro fuel
  induction fuel with
  | zero =>
    intro b1 b2 i hb
    simp [scheduleAux]
  | succ n ih =>
    intro b1 b2 i hb
    have hphi : b2 * (1 + r) - payment - preAt pre2 i ≤
        b1 * (1 + r) - payment - preAt pre1 i := by
      have hmul : b2 * (1 + r) ≤ b1 * (1 + r) :=
        mul_le_mul_of_nonneg_right hb (by linarith)
      have hpre : preAt pre1 i ≤ preAt pre2 i := preAt_mono h0 h12 i
      linarith
    by_cases h2 : b2 * (1 + r) - payment - preAt pre2 i ≤ 0
    · rw [scheduleAux_length_break r pre2 payment b2 i n h2]
      exact scheduleAux_length_one_le r pre1 payment b1 i n
    · push_neg at h2
      have h1 : 0 < b1 * (1 + r) - payment - preAt pre1 i := lt_of_lt_of_le h2 hphi
      rw [scheduleAux_length_go r pre2 payment b2 i n h2,
          scheduleAux_length_go r pre1 payment b1 i n h1]
      exact Nat.add_le_add_left (ih _ _ (i + 1) hphi) 1

/-- Claim C9: holding everything else fixed, a larger prepayment input
never yields a larger reported total interest (the headline metric does
not depend on the prepayment at all) and never yields a longer schedule. -/
theorem c9_prepayment_monotone (hv d rate : ℚ) (t : ℕ) (pre1 pre2 : ℚ)
    (freq : PrepaymentFrequency) (hrate : 0 ≤ rate) (h0 : 0 ≤ pre1) (h12 : pre1 ≤ pre2) :
    total_interest hv d rate t pre2 ≤ total_interest hv d rate t pre1 ∧
      (engineSchedule hv d rate t pre2 freq).length ≤
        (engineSchedule hv d rate t pre1 freq).length := by
  constructor
  · exact le_of_eq rfl
  · have hr : (0:ℚ) ≤ rate / 100 / 12 :=
      div_nonneg (div_nonneg hrate (by norm_num)) (by norm_num)
    exact scheduleAux_length_mono (rate / 100 / 12) hr h0 h12
      (computeMonthlyPayment (hv - d) (rate / 100 / 12) (t * 12)) (t * 12) (hv - d) (hv - d) 1
      le_rfl

/-- Claim C9 witness: concrete comparison of prepayment 0 against
prepayment 5 on an otherwise identical valid loan. -/
theorem c9_prepayment_monotone_witness :
    total_interest 1100 100 1200 2 5 ≤ total_interest 1100 100 1200 2 0 ∧
      (engineSchedule 1100 100 1200 2 5 PrepaymentFrequency.yearly).length ≤
        (engineSchedule 1100 100 1200 2 0 PrepaymentFrequency.yearly).length :=
  c9_prepayment_monotone 1100 100 1200 2 0 5 PrepaymentFrequency.yearly
    (by norm_num) (by norm_num) (by norm_num)

/-- Claim C1 counterexample: at the concrete valid input homeValue 1100,
deposit 100, rate 1200 percent, term 2 years, yearly prepayment 1000000
(validation passes), the reported `total_payments` is the closed form
monthlyPayment * 24 and differs from the sum of the effective payments of
the simulated schedule, which the prepayment cuts to 12 months. -/
theorem c1_counterexample :
    checkInputs 1100 100 1200 2 0 1000000 = [] ∧
      total_payments 1100 100 1200 2 1000000 ≠
        sumPayments (engineSchedule 1100 100 1200 2 1000000 PrepaymentFrequency.yearly) := by
  constructor
  · norm_num [checkInputs, validate_inputs]
  · norm_num [total_payments, engineSchedule, simulate, computeMonthlyPayment,
      prepayment_amount, sumPayments, scheduleAux_pos, scheduleAux_zero]

/-- Claim C1 as amended: the reported `total_interest` equals the reported
`total_payments` minus the loan amount, but `total_payments` is the closed
form monthlyPayment * numPayments computed before the simulation; when a
prepayment shortens the schedule, the sum of the schedule's effective
payments falls strictly below the reported `total_payments`. -/
theorem c1_totals_closed_form :
    (∀ (hv d rate : ℚ) (t : ℕ) (pre : ℚ),
        total_interest hv d rate t pre = total_payments hv d rate t pre - (hv - d) ∧
          total_payments hv d rate t pre =
            computeMonthlyPayment (hv - d) (rate / 100 / 12) (t * 12) * ((t * 12 : ℕ) : ℚ)) ∧
      sumPayments (engineSchedule 1100 100 1200 2 1000000 PrepaymentFrequency.yearly) <
        total_payments 1100 100 1200 2 1000000 := by
  constructor
  · intro hv d rate t pre
    exact ⟨rfl, rfl⟩
  · norm_num [total_payments, engineSchedule, simulate, computeMonthlyPayment,
      prepayment_amount, sumPayments, scheduleAux_pos, scheduleAux_zero]

/-- Claim C2, code evaluated at the failing input: with Monthly frequency
selected and a positive prepayment of 600 on an otherwise valid loan, the
code produces exactly the schedule of the Yearly choice, and its first
month credits no prepayment at all — the claim requires Monthly to add
600 to the principal of every month. -/
theorem c2_monthly_prepayment_ignored :
    engineSchedule 1100 100 1200 1 600 PrepaymentFrequency.monthly =
        engineSchedule 1100 100 1200 1 600 PrepaymentFrequency.yearly ∧
      (engineSchedule 1100 100 1200 1 600 PrepaymentFrequency.monthly).head? =
        (engineSchedule 1100 100 1200 1 0 PrepaymentFrequency.monthly).head? := by
  constructor
  · rfl
  · norm_num [engineSchedule, simulate, computeMonthlyPayment,
      prepayment_amount, scheduleAux_pos, scheduleAux_zero]
